import Mathlib

/-!
Shallow embedding of `src/packages/safe-core-sdk/src/safeFactory/index.ts`
(the `SafeFactory` class: two-phase construction, contract resolution,
setup-call encoding, salt derivation, option validation and the
`deploySafe` deployment path), together with theorems settling the
specification claims about it.

External collaborators (the Ethereum adapter, the contract handles, the
built-in deployment tables and the `Safe` account handle) live outside
`src/`; they are modelled from the spec's external-interface section and
kept symbolic: the adapter is a record of pure observation functions, a
deployment-record lookup returns the record identified by its lookup key,
and contract handles remember exactly the data they were resolved from.
TypeScript `number` fields are modelled as `Nat`, optional fields as
`Option`, thrown `Error(message)` values as `SafeError.thrown message`,
and the `await` points of `deploySafe` as an explicit event trace so that
ordering claims ("before any network call") are statable.
-/

/-- The protocol versions of the `SafeVersion` union type
(`'1.3.0' | '1.2.0' | '1.1.1' | '1.0.0'`). -/
inductive SafeVersion where
  | v1_0_0
  | v1_1_1
  | v1_2_0
  | v1_3_0
deriving DecidableEq, Repr

/-- Modelled from the spec: `SAFE_LAST_VERSION` is imported from
`../contracts/config`, which is not under `src/`; by its name and the
built-in deployment table of the spec it is the latest supported protocol
version, `'1.3.0'`. -/
def SAFE_LAST_VERSION : SafeVersion := SafeVersion.v1_3_0

/-- Modelled from the spec: `ZERO_ADDRESS` is imported from
`../utils/constants`, not under `src/`; the spec calls it the neutral
"zero address" default. -/
def ZERO_ADDRESS : String := "0x0000000000000000000000000000000000000000"

/-- Modelled from the spec: `EMPTY_DATA` is imported from
`../utils/constants`, not under `src/`; the spec calls it the neutral
"empty data" default. -/
def EMPTY_DATA : String := "0x"

/-- A thrown JavaScript `Error`, identified by its message string —
the only discriminant the source gives its failures. -/
inductive SafeError where
  | thrown : String → SafeError
deriving DecidableEq, Repr

/-- The `SafeAccountConfig` interface: `owners` and `threshold` required,
the six remaining fields optional (`to` is renamed `toAddr`, `to` being a
Lean keyword). -/
structure SafeAccountConfig where
  owners : List String
  threshold : Nat
  toAddr : Option String := none
  data : Option String := none
  fallbackHandler : Option String := none
  paymentToken : Option String := none
  payment : Option Nat := none
  paymentReceiver : Option String := none
deriving DecidableEq, Repr

/-- The `SafeDeploymentConfig` interface: a required `saltNonce`. -/
structure SafeDeploymentConfig where
  saltNonce : Nat
deriving DecidableEq, Repr

/-- The `TransactionOptions` type of `safe-core-sdk-types`: optional
sender and gas fields (`from` is renamed `fromAddr`, `from` being a Lean
keyword). -/
structure TransactionOptions where
  fromAddr : Option String := none
  gas : Option Nat := none
  gasLimit : Option Nat := none
  gasPrice : Option Nat := none
deriving DecidableEq, Repr

/-- The `DeploySafeProps` interface. -/
structure DeploySafeProps where
  safeAccountConfig : SafeAccountConfig
  safeDeploymentConfig : Option SafeDeploymentConfig := none
  options : Option TransactionOptions := none
deriving DecidableEq, Repr

/-- Modelled from the spec: `ContractNetworkConfig` (from `../types`, not
under `src/`) carries the network-specific override addresses and ABIs the
source reads through optional chaining. -/
structure ContractNetworkConfig where
  safeMasterCopyAddress : Option String := none
  safeMasterCopyAbi : Option String := none
  safeProxyFactoryAddress : Option String := none
  safeProxyFactoryAbi : Option String := none
deriving DecidableEq, Repr

/-- Modelled from the spec: `ContractNetworksConfig` maps a chain
identifier to its `ContractNetworkConfig`; an association list stands in
for the TypeScript index signature. -/
def ContractNetworksConfig : Type := List (Nat × ContractNetworkConfig)

/-- The built-in singleton deployment record, represented by the lookup
key that selects it in the built-in table (protocol version, chain
identifier, L1-variant flag). -/
structure SafeDeploymentRecord where
  version : SafeVersion
  chainId : Nat
  isL1SafeMasterCopy : Bool
deriving DecidableEq, Repr

/-- The built-in proxy-factory deployment record, represented by its
lookup key (protocol version, chain identifier). -/
structure ProxyFactoryDeploymentRecord where
  version : SafeVersion
  chainId : Nat
deriving DecidableEq, Repr

/-- Modelled from the spec: `getSafeContractDeployment` (from
`../contracts/safeDeploymentContracts`, not under `src/`) reads the
built-in table mapping protocol version + chain identifier (+ L1 flag) to
default deployment records; the returned record is represented by the key
it was looked up with. -/
def getSafeContractDeployment (version : SafeVersion) (chainId : Nat)
    (isL1SafeMasterCopy : Bool) : SafeDeploymentRecord :=
  { version := version, chainId := chainId, isL1SafeMasterCopy := isL1SafeMasterCopy }

/-- Modelled from the spec: `getSafeProxyFactoryContractDeployment` (from
`../contracts/safeDeploymentContracts`, not under `src/`), the analogous
lookup for the proxy factory. -/
def getSafeProxyFactoryContractDeployment (version : SafeVersion)
    (chainId : Nat) : ProxyFactoryDeploymentRecord :=
  { version := version, chainId := chainId }

/-- One argument of an ABI-encoded call, kept symbolic. -/
inductive EncodeArg where
  | addressList : List String → EncodeArg
  | number : Nat → EncodeArg
  | bytes : String → EncodeArg
deriving DecidableEq, Repr

/-- An ABI-encoded contract call, kept symbolic as method name plus
argument list (the spec treats the payload as opaque chain-call data). -/
structure EncodedCall where
  method : String
  args : List EncodeArg
deriving DecidableEq, Repr

/-- The resolved singleton contract handle (`GnosisSafeContract`): it
remembers the resolution inputs and exposes `getAddress` and `encode`. -/
structure GnosisSafeContract where
  safeVersion : SafeVersion
  chainId : Nat
  singletonDeployment : SafeDeploymentRecord
  customContractAddress : Option String
  customContractAbi : Option String
  address : String
deriving DecidableEq, Repr

/-- Modelled from the spec: the singleton handle's
`encodeCall(name, args) -> bytes`; the payload stays symbolic. -/
def GnosisSafeContract.encode (_c : GnosisSafeContract) (method : String)
    (args : List EncodeArg) : EncodedCall :=
  { method := method, args := args }

/-- The resolved proxy-factory contract handle
(`GnosisSafeProxyFactoryContract`). -/
structure GnosisSafeProxyFactoryContract where
  safeVersion : SafeVersion
  chainId : Nat
  proxyFactoryDeployment : ProxyFactoryDeploymentRecord
  customContractAddress : Option String
  customContractAbi : Option String
  address : String
deriving DecidableEq, Repr

/-- The argument record of `createProxy` as `deploySafe` builds it. -/
structure CreateProxyProps where
  safeMasterCopyAddress : String
  initializer : EncodedCall
  saltNonce : Nat
  options : TransactionOptions
deriving DecidableEq, Repr

/-- The chain adapter (`EthAdapter`), an external collaborator modelled
from the spec's external-interface section as a record of pure
observations: the live chain identifier, the signer address, code
presence per address, the built-in deployment addresses, and the address
a `createProxy` call would return. -/
structure EthAdapter where
  chainId : Nat
  signerAddress : String
  deployed : String → Bool
  builtinSafeAddress : SafeDeploymentRecord → String
  builtinProxyFactoryAddress : ProxyFactoryDeploymentRecord → String
  createProxyResult : CreateProxyProps → String

/-- Modelled from the spec: `ethAdapter.getSafeContract` resolves a
singleton handle, preferring a supplied override address over the
built-in deployment record's address. -/
def EthAdapter.getSafeContract (a : EthAdapter) (safeVersion : SafeVersion)
    (chainId : Nat) (singletonDeployment : SafeDeploymentRecord)
    (customContractAddress customContractAbi : Option String) :
    GnosisSafeContract :=
  { safeVersion := safeVersion
    chainId := chainId
    singletonDeployment := singletonDeployment
    customContractAddress := customContractAddress
    customContractAbi := customContractAbi
    address := customContractAddress.getD (a.builtinSafeAddress singletonDeployment) }

/-- Modelled from the spec: `ethAdapter.getSafeProxyFactoryContract`,
the analogous resolution for the proxy factory. -/
def EthAdapter.getSafeProxyFactoryContract (a : EthAdapter)
    (safeVersion : SafeVersion) (chainId : Nat)
    (proxyFactoryDeployment : ProxyFactoryDeploymentRecord)
    (customContractAddress customContractAbi : Option String) :
    GnosisSafeProxyFactoryContract :=
  { safeVersion := safeVersion
    chainId := chainId
    proxyFactoryDeployment := proxyFactoryDeployment
    customContractAddress := customContractAddress
    customContractAbi := customContractAbi
    address := customContractAddress.getD (a.builtinProxyFactoryAddress proxyFactoryDeployment) }

/-- Modelled from the spec: the `Safe` account-management handle
(`../Safe`, not under `src/`) that `Safe.create` binds to the verified
address. -/
structure Safe where
  safeAddress : String
deriving DecidableEq, Repr

/-- The error thrown by `getSafeContract` when the singleton has no code
(source line 219: `new Error('Safe Proxy contract is not deployed in the
current network')`). -/
def safeContractNotDeployedError : SafeError :=
  SafeError.thrown "Safe Proxy contract is not deployed in the current network"

/-- The error thrown by `getProxyFactoryContract` when the factory has no
code (source line 241). -/
def proxyFactoryNotDeployedError : SafeError :=
  SafeError.thrown "Safe Proxy Factory contract is not deployed in the current network"

/-- The error thrown by `deploySafe` when the post-submission code check
fails (source line 185). -/
def deploymentVerificationError : SafeError :=
  SafeError.thrown "Safe Proxy contract is not deployed in the current network"

/-- The error thrown by `deploySafe` when `options.gas` and
`options.gasLimit` are both truthy (source line 172). -/
def conflictingGasOptionsError : SafeError :=
  SafeError.thrown "Cannot specify gas and gasLimit together in transaction options"

/-- Modelled from the spec: the error `validateSafeAccountConfig` fails
with, named `InvalidConfiguration` by the spec's error taxonomy. -/
def invalidConfigurationError : SafeError :=
  SafeError.thrown "InvalidConfiguration"

/-- Whether a list of owner addresses contains a duplicate. -/
def hasDuplicates : List String → Bool
  | [] => false
  | a :: l => l.contains a || hasDuplicates l

/-- The invalid-account-configuration predicate: owners empty, a zero
owner address, duplicate owners, or threshold outside `[1, owners.length]`. -/
def accountConfigInvalid (config : SafeAccountConfig) : Bool :=
  config.owners.isEmpty
    || config.owners.contains ZERO_ADDRESS
    || hasDuplicates config.owners
    || config.threshold < 1
    || config.threshold > config.owners.length

/-- Modelled from the spec: `validateSafeAccountConfig` (from
`./safeFactory/utils`, not under `src/`); spec section 4.1: fails with
`InvalidConfiguration` when owners is empty, an owner is the zero
address, duplicate owners exist, or the threshold is outside
`[1, owners.length]`; otherwise a pure no-op. -/
def validateSafeAccountConfig (config : SafeAccountConfig) : Except SafeError Unit :=
  if accountConfigInvalid config then Except.error invalidConfigurationError
  else Except.ok ()

/-- JavaScript truthiness of an optional number (`options?.gas`):
falsy when absent or zero. -/
def truthyNat : Option Nat → Bool
  | none => false
  | some n => n != 0

/-- The gas-conflict condition of `deploySafe`:
`options?.gas && options?.gasLimit`. -/
def gasConflict (options : Option TransactionOptions) : Bool :=
  truthyNat (options.bind (fun o => o.gas))
    && truthyNat (options.bind (fun o => o.gasLimit))

/-- The option merge `{ from: signerAddress, ...options }`: fields of
`options` override the defaulted sender; absent fields stay absent. -/
def mergeOptions (signerAddress : String) (options : Option TransactionOptions) :
    TransactionOptions :=
  match options with
  | none => { fromAddr := some signerAddress }
  | some o =>
    { fromAddr := o.fromAddr.getD signerAddress
      gas := o.gas
      gasLimit := o.gasLimit
      gasPrice := o.gasPrice }

/-- The ambient nondeterminism `deploySafe` samples: `Date.now()` in
milliseconds and `Math.floor(Math.random() * 1000)`. -/
structure Env where
  now : Nat
  random : Nat
deriving DecidableEq, Repr

/-- The state of a fully initialized `SafeFactory` instance: the private
fields set once by `init` and never mutated. -/
structure SafeFactoryState where
  safeVersion : SafeVersion
  isL1SafeMasterCopy : Bool
  contractNetworks : Option ContractNetworksConfig
  safeProxyFactoryContract : GnosisSafeProxyFactoryContract
  gnosisSafeContract : GnosisSafeContract

/-- The `SafeFactoryConfig` interface: every field but the adapter
optional (the adapter itself is passed separately). -/
structure SafeFactoryConfig where
  safeVersion : Option SafeVersion := none
  isL1SafeMasterCopy : Option Bool := none
  contractNetworks : Option ContractNetworksConfig := none

/-- One observable interaction of the `deploySafe` path, in program
order: the signer query, the setup encoding, the proxy-creation
submission, the code-presence check, and the `Safe.create` wrap. -/
inductive Event where
  | getSignerAddress
  | encodeSetup : SafeAccountConfig → Event
  | createProxy : CreateProxyProps → Event
  | isContractDeployed : String → Event
  | safeCreate : String → Event
deriving DecidableEq, Repr

/-- The singleton handle `SafeFactory.getSafeContract` builds before its
deployment check: the built-in record is looked up with
`SAFE_LAST_VERSION` (source line 203), not the requested version. -/
def SafeFactory.resolvedSingleton (a : EthAdapter) (safeVersion : SafeVersion)
    (chainId : Nat) (isL1SafeMasterCopy : Bool)
    (customContracts : Option ContractNetworkConfig) : GnosisSafeContract :=
  let safeSingletonDeployment :=
    getSafeContractDeployment SAFE_LAST_VERSION chainId isL1SafeMasterCopy
  a.getSafeContract safeVersion chainId safeSingletonDeployment
    (customContracts.bind (fun c => c.safeMasterCopyAddress))
    (customContracts.bind (fun c => c.safeMasterCopyAbi))

/-- `SafeFactory.getSafeContract`: resolve the singleton handle, then
fail unless code is present at its address. -/
def SafeFactory.getSafeContract (a : EthAdapter) (safeVersion : SafeVersion)
    (chainId : Nat) (isL1SafeMasterCopy : Bool)
    (customContracts : Option ContractNetworkConfig) :
    Except SafeError GnosisSafeContract :=
  let gnosisSafeContract :=
    SafeFactory.resolvedSingleton a safeVersion chainId isL1SafeMasterCopy customContracts
  if a.deployed gnosisSafeContract.address then Except.ok gnosisSafeContract
  else Except.error safeContractNotDeployedError

/-- The factory handle `SafeFactory.getProxyFactoryContract` builds
before its deployment check; here the built-in record IS looked up with
the requested version (source line 230). -/
def SafeFactory.resolvedProxyFactory (a : EthAdapter) (safeVersion : SafeVersion)
    (chainId : Nat) (customContracts : Option ContractNetworkConfig) :
    GnosisSafeProxyFactoryContract :=
  let proxyFactoryDeployment := getSafeProxyFactoryContractDeployment safeVersion chainId
  a.getSafeProxyFactoryContract safeVersion chainId proxyFactoryDeployment
    (customContracts.bind (fun c => c.safeProxyFactoryAddress))
    (customContracts.bind (fun c => c.safeProxyFactoryAbi))

/-- `SafeFactory.getProxyFactoryContract`: resolve the factory handle,
then fail unless code is present at its address. -/
def SafeFactory.getProxyFactoryContract (a : EthAdapter) (safeVersion : SafeVersion)
    (chainId : Nat) (customContracts : Option ContractNetworkConfig) :
    Except SafeError GnosisSafeProxyFactoryContract :=
  let safeProxyFactoryContract :=
    SafeFactory.resolvedProxyFactory a safeVersion chainId customContracts
  if a.deployed safeProxyFactoryContract.address then Except.ok safeProxyFactoryContract
  else Except.error proxyFactoryNotDeployedError

/-- The per-chain custom contracts `init` selects:
`contractNetworks?.[chainId]`. -/
def SafeFactory.customContractsOf (a : EthAdapter)
    (contractNetworks : Option ContractNetworksConfig) :
    Option ContractNetworkConfig :=
  contractNetworks.bind (fun cn => List.lookup a.chainId cn)

/-- `SafeFactory.init`: query the chain identifier, resolve and verify
the proxy factory, then the singleton; only then assemble the instance
state. -/
def SafeFactory.init (a : EthAdapter) (safeVersion : SafeVersion)
    (isL1SafeMasterCopy : Bool) (contractNetworks : Option ContractNetworksConfig) :
    Except SafeError SafeFactoryState :=
  let chainId := a.chainId
  let customContracts := SafeFactory.customContractsOf a contractNetworks
  match SafeFactory.getProxyFactoryContract a safeVersion chainId customContracts with
  | Except.error e => Except.error e
  | Except.ok safeProxyFactoryContract =>
    match SafeFactory.getSafeContract a safeVersion chainId isL1SafeMasterCopy customContracts with
    | Except.error e => Except.error e
    | Except.ok gnosisSafeContract =>
      Except.ok
        { safeVersion := safeVersion
          isL1SafeMasterCopy := isL1SafeMasterCopy
          contractNetworks := contractNetworks
          safeProxyFactoryContract := safeProxyFactoryContract
          gnosisSafeContract := gnosisSafeContract }

/-- `SafeFactory.create`: apply the parameter defaults
(`safeVersion = SAFE_LAST_VERSION`, `isL1SafeMasterCopy = false`) and run
`init`; the instance is returned only if `init` succeeds. -/
def SafeFactory.create (a : EthAdapter) (config : SafeFactoryConfig) :
    Except SafeError SafeFactoryState :=
  SafeFactory.init a (config.safeVersion.getD SAFE_LAST_VERSION)
    (config.isL1SafeMasterCopy.getD false) config.contractNetworks

/-- `SafeFactory.encodeSetupCallData`: the `setup` call over the eight
fields, optional ones defaulted by the destructuring defaults of the
source (`ZERO_ADDRESS`, `EMPTY_DATA`, `0`). -/
def SafeFactory.encodeSetupCallData (f : SafeFactoryState)
    (config : SafeAccountConfig) : EncodedCall :=
  f.gnosisSafeContract.encode "setup"
    [ EncodeArg.addressList config.owners
    , EncodeArg.number config.threshold
    , EncodeArg.bytes (config.toAddr.getD ZERO_ADDRESS)
    , EncodeArg.bytes (config.data.getD EMPTY_DATA)
    , EncodeArg.bytes (config.fallbackHandler.getD ZERO_ADDRESS)
    , EncodeArg.bytes (config.paymentToken.getD ZERO_ADDRESS)
    , EncodeArg.number (config.payment.getD 0)
    , EncodeArg.bytes (config.paymentReceiver.getD ZERO_ADDRESS) ]

/-- The salt `deploySafe` computes:
`safeDeploymentConfig?.saltNonce ?? Date.now() * 1000 + Math.floor(Math.random() * 1000)`. -/
def SafeFactory.saltNonceOf (env : Env) (props : DeploySafeProps) : Nat :=
  match props.safeDeploymentConfig with
  | some c => c.saltNonce
  | none => env.now * 1000 + env.random

/-- The `createProxy` argument record `deploySafe` submits. -/
def SafeFactory.buildCreateProxyProps (f : SafeFactoryState) (a : EthAdapter)
    (env : Env) (props : DeploySafeProps) : CreateProxyProps :=
  { safeMasterCopyAddress := f.gnosisSafeContract.address
    initializer := SafeFactory.encodeSetupCallData f props.safeAccountConfig
    saltNonce := SafeFactory.saltNonceOf env props
    options := mergeOptions a.signerAddress props.options }

/-- The address the factory call returns for this deployment. -/
def SafeFactory.predictedAddress (f : SafeFactoryState) (a : EthAdapter)
    (env : Env) (props : DeploySafeProps) : String :=
  a.createProxyResult (SafeFactory.buildCreateProxyProps f a env props)

/-- `SafeFactory.deploySafe`, with its interactions logged in program
order: validate the account config; query the signer; encode the setup
payload; compute the salt; reject conflicting gas options; submit
`createProxy`; check code presence at the returned address; wrap it into
a `Safe` handle. -/
def SafeFactory.deploySafe (f : SafeFactoryState) (a : EthAdapter) (env : Env)
    (props : DeploySafeProps) : Except SafeError Safe × List Event :=
  match validateSafeAccountConfig props.safeAccountConfig with
  | Except.error e => (Except.error e, [])
  | Except.ok _ =>
    let preEvents := [Event.getSignerAddress, Event.encodeSetup props.safeAccountConfig]
    if gasConflict props.options then
      (Except.error conflictingGasOptionsError, preEvents)
    else
      let createProxyProps := SafeFactory.buildCreateProxyProps f a env props
      let safeAddress := a.createProxyResult createProxyProps
      let submitEvents :=
        preEvents ++ [Event.createProxy createProxyProps, Event.isContractDeployed safeAddress]
      if a.deployed safeAddress then
        (Except.ok { safeAddress := safeAddress },
          submitEvents ++ [Event.safeCreate safeAddress])
      else
        (Except.error deploymentVerificationError, submitEvents)

deriving instance DecidableEq for Except

/-- The setup payload as the spec describes it (section 4.3, step 3): one
"setup" call over owners, threshold and the six optional fields, each
optional field replaced by its neutral value — zero address for address
fields, empty data for call data, zero for the payment amount — when
omitted. -/
def specSetupPayload (config : SafeAccountConfig) : EncodedCall :=
  { method := "setup"
    args :=
      [ EncodeArg.addressList config.owners
      , EncodeArg.number config.threshold
      , EncodeArg.bytes (match config.toAddr with | some a => a | none => ZERO_ADDRESS)
      , EncodeArg.bytes (match config.data with | some d => d | none => EMPTY_DATA)
      , EncodeArg.bytes (match config.fallbackHandler with | some a => a | none => ZERO_ADDRESS)
      , EncodeArg.bytes (match config.paymentToken with | some a => a | none => ZERO_ADDRESS)
      , EncodeArg.number (match config.payment with | some p => p | none => 0)
      , EncodeArg.bytes (match config.paymentReceiver with | some a => a | none => ZERO_ADDRESS) ] }

/-- A concrete adapter whose chain hosts code at every address. -/
def sampleAdapterAll : EthAdapter :=
  { chainId := 1
    signerAddress := "0xSigner"
    deployed := fun _ => true
    builtinSafeAddress := fun _ => "0xSingleton"
    builtinProxyFactoryAddress := fun _ => "0xFactory"
    createProxyResult := fun _ => "0xNewSafe" }

/-- A concrete adapter whose chain hosts code at no address. -/
def sampleAdapterNone : EthAdapter :=
  { sampleAdapterAll with deployed := fun _ => false }

/-- A concrete valid account configuration: two owners, threshold 2. -/
def sampleAccountConfig : SafeAccountConfig :=
  { owners := ["0xOwnerA", "0xOwnerB"], threshold := 2 }

/-- A concrete environment sample for the default-salt derivation. -/
def sampleEnv : Env :=
  { now := 1700000000000, random := 123 }

/-- A concrete initialized factory state, resolved against
`sampleAdapterAll` at protocol version 1.3.0 on chain 1. -/
def sampleFactoryState : SafeFactoryState :=
  { safeVersion := SafeVersion.v1_3_0
    isL1SafeMasterCopy := false
    contractNetworks := none
    safeProxyFactoryContract :=
      SafeFactory.resolvedProxyFactory sampleAdapterAll SafeVersion.v1_3_0 1 none
    gnosisSafeContract :=
      SafeFactory.resolvedSingleton sampleAdapterAll SafeVersion.v1_3_0 1 false none }

/-- Deployment props with the sample config and no explicit salt or
options. -/
def sampleProps : DeploySafeProps :=
  { safeAccountConfig := sampleAccountConfig }

/-- Deployment props whose options set `gas` to the falsy value `0` and
`gasLimit` to a nonzero value: both fields present, not both truthy. -/
def gasZeroProps : DeploySafeProps :=
  { safeAccountConfig := sampleAccountConfig
    options := some { gas := some 0, gasLimit := some 100000 } }

/-- Deployment props whose options set `gas` and `gasLimit` both to
nonzero (truthy) values. -/
def conflictProps : DeploySafeProps :=
  { safeAccountConfig := sampleAccountConfig
    options := some { gas := some 30000, gasLimit := some 30000 } }

/-- Deployment props with an empty owner list (invalid configuration). -/
def emptyOwnersProps : DeploySafeProps :=
  { safeAccountConfig := { owners := [], threshold := 1 } }

/-- Deployment props carrying an explicit `saltNonce` of `0`. -/
def zeroSaltProps : DeploySafeProps :=
  { safeAccountConfig := sampleAccountConfig
    safeDeploymentConfig := some { saltNonce := 0 } }

/-- The proxy-factory handle a `create` call resolves, with the
parameter defaults of `create` applied. -/
def SafeFactory.createdProxyFactory (a : EthAdapter) (config : SafeFactoryConfig) :
    GnosisSafeProxyFactoryContract :=
  SafeFactory.resolvedProxyFactory a (config.safeVersion.getD SAFE_LAST_VERSION)
    a.chainId (SafeFactory.customContractsOf a config.contractNetworks)

/-- The singleton handle a `create` call resolves, with the parameter
defaults of `create` applied. -/
def SafeFactory.createdSingleton (a : EthAdapter) (config : SafeFactoryConfig) :
    GnosisSafeContract :=
  SafeFactory.resolvedSingleton a (config.safeVersion.getD SAFE_LAST_VERSION)
    a.chainId (config.isL1SafeMasterCopy.getD false)
    (SafeFactory.customContractsOf a config.contractNetworks)

theorem createProxy_event_mem (f : SafeFactoryState) (a : EthAdapter) (env : Env)
    (props : DeploySafeProps)
    (hv : accountConfigInvalid props.safeAccountConfig = false)
    (hg : gasConflict props.options = false) :
    Event.createProxy (SafeFactory.buildCreateProxyProps f a env props)
      ∈ (SafeFactory.deploySafe f a env props).2 := by
  by_cases hd : a.deployed (a.createProxyResult (SafeFactory.buildCreateProxyProps f a env props))
  all_goals
    simp [SafeFactory.deploySafe, validateSafeAccountConfig, hv, hg, hd]

/-- C1: FALSIFIED — `getSafeContract` looks up the built-in singleton
deployment record with the constant `SAFE_LAST_VERSION` (source line 203),
not the protocol version requested at factory construction. At the
failing input — requested version 1.1.1, chain 1 — the record looked up is
the one for version 1.3.0, while the proxy-factory path at the same input
does use the requested version 1.1.1. -/
theorem singleton_lookup_ignores_requested_version :
    (SafeFactory.resolvedSingleton sampleAdapterAll SafeVersion.v1_1_1 1 false
        none).singletonDeployment
      = getSafeContractDeployment SAFE_LAST_VERSION 1 false
    ∧ (SafeFactory.resolvedSingleton sampleAdapterAll SafeVersion.v1_1_1 1 false
        none).singletonDeployment.version = SafeVersion.v1_3_0
    ∧ SafeVersion.v1_3_0 ≠ SafeVersion.v1_1_1
    ∧ (SafeFactory.resolvedProxyFactory sampleAdapterAll SafeVersion.v1_1_1 1
        none).proxyFactoryDeployment.version = SafeVersion.v1_1_1 := by
  exact ⟨rfl, rfl, by decide, rfl⟩

/-- C3: whenever the account configuration is invalid (empty owners, a
zero or duplicate owner address, or a threshold outside the range from 1
to the owner count), `deploySafe` fails with the invalid-configuration
error and its event trace is empty: no signer-address query, no setup
encoding, no transaction submission, no network interaction at all. -/
theorem deploySafe_invalid_config_no_network (f : SafeFactoryState)
    (a : EthAdapter) (env : Env) (props : DeploySafeProps)
    (h : accountConfigInvalid props.safeAccountConfig = true) :
    SafeFactory.deploySafe f a env props
      = (Except.error invalidConfigurationError, []) := by
  simp [SafeFactory.deploySafe, validateSafeAccountConfig, h]

/-- C3 witness: a run with an empty owner list. -/
theorem deploySafe_invalid_config_no_network_witness :
    SafeFactory.deploySafe sampleFactoryState sampleAdapterAll sampleEnv
        emptyOwnersProps
      = (Except.error invalidConfigurationError, []) := by
  exact deploySafe_invalid_config_no_network sampleFactoryState sampleAdapterAll
    sampleEnv emptyOwnersProps (by decide)

/-- C5: for every account configuration, the encoded setup payload is the
single "setup" call over exactly the eight fields, with every omitted
optional field replaced by its neutral default (zero address, empty data,
zero payment), as the spec-side description `specSetupPayload` states. -/
theorem encodeSetupCallData_eq_spec (f : SafeFactoryState)
    (config : SafeAccountConfig) :
    SafeFactory.encodeSetupCallData f config = specSetupPayload config := by
  unfold SafeFactory.encodeSetupCallData specSetupPayload GnosisSafeContract.encode
  cases config.toAddr <;> cases config.data <;> cases config.fallbackHandler <;>
    cases config.paymentToken <;> cases config.payment <;>
    cases config.paymentReceiver <;> rfl

/-- C8: FALSIFIED at a concrete input — the error raised when singleton
resolution finds no code (a run of `getSafeContract` against an adapter
with no code on chain) and the error raised by the post-submission
deployment verification (a run of `deploySafe` whose code check fails)
are the very same value, the message string being identical in the two
throw sites (source lines 219 and 185), so the two failure kinds are not
distinguishable by the error raised. -/
theorem singleton_and_verification_errors_collide :
    SafeFactory.getSafeContract sampleAdapterNone SafeVersion.v1_3_0 1 false none
      = Except.error
          (SafeError.thrown "Safe Proxy contract is not deployed in the current network")
    ∧ (SafeFactory.deploySafe sampleFactoryState sampleAdapterNone sampleEnv
          sampleProps).1
      = Except.error
          (SafeError.thrown "Safe Proxy contract is not deployed in the current network") := by
  exact ⟨rfl, rfl⟩

/-- C8 amended: the factory-not-deployed resolution failure is
distinguishable from the other two failure kinds, but the
singleton-not-deployed resolution failure and the post-submission
deployment-verification failure raise equal errors and are not
distinguishable from one another. -/
theorem deployment_error_distinguishability :
    proxyFactoryNotDeployedError ≠ safeContractNotDeployedError
    ∧ proxyFactoryNotDeployedError ≠ deploymentVerificationError
    ∧ safeContractNotDeployedError = deploymentVerificationError := by
  exact ⟨by decide, by decide, rfl⟩

/-- C2 counterexample: a call to `deploySafe` whose transaction options
contain both `gas` (present, equal to 0) and `gasLimit` (present,
nonzero) does NOT fail with the conflicting-gas error — the run submits
the proxy-creation call (a `createProxy` event is in the trace) and
succeeds, because the source tests JavaScript truthiness
(`options?.gas && options?.gasLimit`), not field presence. -/
theorem deploySafe_gas_zero_no_conflict :
    (SafeFactory.deploySafe sampleFactoryState sampleAdapterAll sampleEnv
          gasZeroProps).1
      ≠ Except.error conflictingGasOptionsError
    ∧ Event.createProxy
          (SafeFactory.buildCreateProxyProps sampleFactoryState sampleAdapterAll
            sampleEnv gasZeroProps)
        ∈ (SafeFactory.deploySafe sampleFactoryState sampleAdapterAll sampleEnv
            gasZeroProps).2 := by
  exact ⟨by decide, by decide⟩

/-- C2 amended: for every call to `deploySafe` whose account
configuration passes validation and whose transaction options carry a
truthy (nonzero) `gas` and a truthy (nonzero) `gasLimit` simultaneously,
the operation fails with the conflicting-gas-options error and no
proxy-creation call is submitted: the trace holds no `createProxy`
event. -/
theorem deploySafe_conflicting_gas (f : SafeFactoryState) (a : EthAdapter)
    (env : Env) (props : DeploySafeProps)
    (hv : accountConfigInvalid props.safeAccountConfig = false)
    (hg : gasConflict props.options = true) :
    (SafeFactory.deploySafe f a env props).1
        = Except.error conflictingGasOptionsError
    ∧ ∀ p, Event.createProxy p ∉ (SafeFactory.deploySafe f a env props).2 := by
  simp [SafeFactory.deploySafe, validateSafeAccountConfig, hv, hg]

/-- C2 witness: a concrete run with gas = 30000 and gasLimit = 30000. -/
theorem deploySafe_conflicting_gas_witness :
    (SafeFactory.deploySafe sampleFactoryState sampleAdapterAll sampleEnv
          conflictProps).1
      = Except.error conflictingGasOptionsError := by
  exact (deploySafe_conflicting_gas sampleFactoryState sampleAdapterAll sampleEnv
    conflictProps (by decide) (by decide)).1

/-- C6: in every run that reaches the proxy-creation call (valid config,
no gas conflict), the salt passed to `createProxy` is the caller-supplied
`saltNonce` when a deployment config is given, and otherwise the default
`Date.now() * 1000 + Math.floor(Math.random() * 1000)`, modelled as
`env.now * 1000 + env.random`. -/
theorem deploySafe_salt_derivation (f : SafeFactoryState) (a : EthAdapter)
    (env : Env) (props : DeploySafeProps)
    (hv : accountConfigInvalid props.safeAccountConfig = false)
    (hg : gasConflict props.options = false) :
    Event.createProxy (SafeFactory.buildCreateProxyProps f a env props)
        ∈ (SafeFactory.deploySafe f a env props).2
    ∧ (∀ c, props.safeDeploymentConfig = some c →
        (SafeFactory.buildCreateProxyProps f a env props).saltNonce = c.saltNonce)
    ∧ (props.safeDeploymentConfig = none →
        (SafeFactory.buildCreateProxyProps f a env props).saltNonce
          = env.now * 1000 + env.random) := by
  refine ⟨createProxy_event_mem f a env props hv hg, ?_, ?_⟩
  · intro c hc
    simp [SafeFactory.buildCreateProxyProps, SafeFactory.saltNonceOf, hc]
  · intro hc
    simp [SafeFactory.buildCreateProxyProps, SafeFactory.saltNonceOf, hc]

/-- C6 witness: a concrete run without a deployment config takes the
time-and-randomness default. -/
theorem deploySafe_salt_derivation_witness :
    (SafeFactory.buildCreateProxyProps sampleFactoryState sampleAdapterAll
        sampleEnv sampleProps).saltNonce
      = sampleEnv.now * 1000 + sampleEnv.random := by
  exact (deploySafe_salt_derivation sampleFactoryState sampleAdapterAll sampleEnv
    sampleProps (by decide) (by decide)).2.2 rfl

/-- C9: an explicitly supplied `saltNonce` of 0 is honored — when the
deployment config is present with `saltNonce = 0`, the salt passed to the
proxy-creation call is 0, not the time/random default, because the source
uses nullish coalescing (the default applies only when
`safeDeploymentConfig?.saltNonce` is nullish). -/
theorem deploySafe_honors_zero_salt (f : SafeFactoryState) (a : EthAdapter)
    (env : Env) (props : DeploySafeProps)
    (hv : accountConfigInvalid props.safeAccountConfig = false)
    (hg : gasConflict props.options = false)
    (hs : props.safeDeploymentConfig = some { saltNonce := 0 }) :
    (SafeFactory.buildCreateProxyProps f a env props).saltNonce = 0
    ∧ Event.createProxy (SafeFactory.buildCreateProxyProps f a env props)
        ∈ (SafeFactory.deploySafe f a env props).2 := by
  refine ⟨?_, createProxy_event_mem f a env props hv hg⟩
  simp [SafeFactory.buildCreateProxyProps, SafeFactory.saltNonceOf, hs]

/-- C9 witness: a concrete run with an explicit zero salt. -/
theorem deploySafe_honors_zero_salt_witness :
    (SafeFactory.buildCreateProxyProps sampleFactoryState sampleAdapterAll
        sampleEnv zeroSaltProps).saltNonce = 0 := by
  exact (deploySafe_honors_zero_salt sampleFactoryState sampleAdapterAll sampleEnv
    zeroSaltProps (by decide) (by decide) rfl).1

/-- C10: the conflicting-gas check tests truthiness, not presence — for
every call whose account configuration passes validation, `deploySafe`
fails with the gas-conflict error exactly when `options.gas` and
`options.gasLimit` are both truthy (present and nonzero); and whenever
they are not both truthy, no gas-conflict error is raised, the
proxy-creation call is submitted, and both fields are forwarded verbatim
in the merged transaction options. -/
theorem deploySafe_gas_truthiness (f : SafeFactoryState) (a : EthAdapter)
    (env : Env) (props : DeploySafeProps)
    (hv : accountConfigInvalid props.safeAccountConfig = false) :
    ((SafeFactory.deploySafe f a env props).1
          = Except.error conflictingGasOptionsError
        ↔ truthyNat (props.options.bind (fun o => o.gas)) = true
          ∧ truthyNat (props.options.bind (fun o => o.gasLimit)) = true)
    ∧ (gasConflict props.options = false →
        (SafeFactory.buildCreateProxyProps f a env props).options.gas
            = props.options.bind (fun o => o.gas)
        ∧ (SafeFactory.buildCreateProxyProps f a env props).options.gasLimit
            = props.options.bind (fun o => o.gasLimit)
        ∧ Event.createProxy (SafeFactory.buildCreateProxyProps f a env props)
            ∈ (SafeFactory.deploySafe f a env props).2) := by
  have key : (SafeFactory.deploySafe f a env props).1
      = Except.error conflictingGasOptionsError
      ↔ gasConflict props.options = true := by
    by_cases hg : gasConflict props.options = true
    · simp [SafeFactory.deploySafe, validateSafeAccountConfig, hv, hg]
    · rw [Bool.not_eq_true] at hg
      by_cases hd : a.deployed
          (a.createProxyResult (SafeFactory.buildCreateProxyProps f a env props)) = true
      · simp [SafeFactory.deploySafe, validateSafeAccountConfig, hv, hg, hd]
      · rw [Bool.not_eq_true] at hd
        simp [SafeFactory.deploySafe, validateSafeAccountConfig, hv, hg, hd,
          deploymentVerificationError, conflictingGasOptionsError]
  constructor
  · rw [key]
    simp [gasConflict, Bool.and_eq_true]
  · intro hg
    refine ⟨?_, ?_, createProxy_event_mem f a env props hv hg⟩
    · simp only [SafeFactory.buildCreateProxyProps, mergeOptions]
      cases props.options with
      | none => rfl
      | some o => rfl
    · simp only [SafeFactory.buildCreateProxyProps, mergeOptions]
      cases props.options with
      | none => rfl
      | some o => rfl

/-- C10 witness: with gas present but zero and gasLimit nonzero, both
fields are forwarded verbatim into the submitted transaction options. -/
theorem deploySafe_gas_truthiness_witness :
    (SafeFactory.buildCreateProxyProps sampleFactoryState sampleAdapterAll
        sampleEnv gasZeroProps).options.gas = some 0
    ∧ (SafeFactory.buildCreateProxyProps sampleFactoryState sampleAdapterAll
        sampleEnv gasZeroProps).options.gasLimit = some 100000 := by
  have h := (deploySafe_gas_truthiness sampleFactoryState sampleAdapterAll
    sampleEnv gasZeroProps (by decide)).2 (by decide)
  exact ⟨h.1.trans (by decide), h.2.1.trans (by decide)⟩

/-- C4: `deploySafe` returns a handle only for an address verified to
host deployed code — every successful run's `Safe` address has code
present; and whenever the run reaches the post-submission check and no
code is present at the returned address, the operation fails with the
deployment-verification error and no `Safe.create` wrap happens: no
`safeCreate` event is in the trace. -/
theorem deploySafe_verifies_code_presence (f : SafeFactoryState)
    (a : EthAdapter) (env : Env) (props : DeploySafeProps) :
    (∀ s, (SafeFactory.deploySafe f a env props).1 = Except.ok s →
        a.deployed s.safeAddress = true)
    ∧ (accountConfigInvalid props.safeAccountConfig = false →
        gasConflict props.options = false →
        a.deployed (SafeFactory.predictedAddress f a env props) = false →
        (SafeFactory.deploySafe f a env props).1
            = Except.error deploymentVerificationError
        ∧ ∀ addr, Event.safeCreate addr ∉ (SafeFactory.deploySafe f a env props).2) := by
  constructor
  · intro s hs
    by_cases hv : accountConfigInvalid props.safeAccountConfig = true
    · simp [SafeFactory.deploySafe, validateSafeAccountConfig, hv] at hs
    · rw [Bool.not_eq_true] at hv
      by_cases hg : gasConflict props.options = true
      · simp [SafeFactory.deploySafe, validateSafeAccountConfig, hv, hg] at hs
      · rw [Bool.not_eq_true] at hg
        by_cases hd : a.deployed
            (a.createProxyResult (SafeFactory.buildCreateProxyProps f a env props)) = true
        · simp [SafeFactory.deploySafe, validateSafeAccountConfig, hv, hg, hd] at hs
          rw [← hs]
          exact hd
        · rw [Bool.not_eq_true] at hd
          simp [SafeFactory.deploySafe, validateSafeAccountConfig, hv, hg, hd] at hs
  · intro hv hg hd
    rw [SafeFactory.predictedAddress] at hd
    constructor
    · simp [SafeFactory.deploySafe, validateSafeAccountConfig, hv, hg, hd]
    · intro addr
      simp [SafeFactory.deploySafe, validateSafeAccountConfig, hv, hg, hd]

/-- C4 witness: against an all-deployed chain a successful run's address
hosts code; against a chain with no code anywhere, the same call fails
with the deployment-verification error. -/
theorem deploySafe_verifies_code_presence_witness :
    sampleAdapterAll.deployed "0xNewSafe" = true
    ∧ (SafeFactory.deploySafe sampleFactoryState sampleAdapterNone sampleEnv
          sampleProps).1 = Except.error deploymentVerificationError := by
  constructor
  · exact (deploySafe_verifies_code_presence sampleFactoryState sampleAdapterAll
      sampleEnv sampleProps).1 { safeAddress := "0xNewSafe" } (by decide)
  · exact ((deploySafe_verifies_code_presence sampleFactoryState sampleAdapterNone
      sampleEnv sampleProps).2 (by decide) (by decide) (by decide)).1

/-- C7: two-phase construction never leaks a partially-initialized
factory — `create` returns an instance only when both the proxy-factory
and singleton handles it resolves are verified deployed (the returned
state holds exactly those two resolved handles and code is present at
both addresses); and if either contract has no code at its resolved
address, `create` fails with one of the two contract-not-deployed errors
and no factory state is returned. -/
theorem create_two_phase (a : EthAdapter) (config : SafeFactoryConfig) :
    (∀ f, SafeFactory.create a config = Except.ok f →
        f.safeProxyFactoryContract = SafeFactory.createdProxyFactory a config
        ∧ f.gnosisSafeContract = SafeFactory.createdSingleton a config
        ∧ a.deployed f.safeProxyFactoryContract.address = true
        ∧ a.deployed f.gnosisSafeContract.address = true)
    ∧ ((a.deployed (SafeFactory.createdProxyFactory a config).address = false
        ∨ a.deployed (SafeFactory.createdSingleton a config).address = false) →
        ∃ e, SafeFactory.create a config = Except.error e
          ∧ (e = proxyFactoryNotDeployedError ∨ e = safeContractNotDeployedError)) := by
  constructor
  · intro f hf
    by_cases hp : a.deployed (SafeFactory.createdProxyFactory a config).address = true
    · by_cases hs : a.deployed (SafeFactory.createdSingleton a config).address = true
      · unfold SafeFactory.createdProxyFactory at hp
        unfold SafeFactory.createdSingleton at hs
        simp [SafeFactory.create, SafeFactory.init, SafeFactory.getProxyFactoryContract,
          SafeFactory.getSafeContract, hp, hs] at hf
        rw [← hf]
        exact ⟨rfl, rfl, hp, hs⟩
      · rw [Bool.not_eq_true] at hs
        unfold SafeFactory.createdProxyFactory at hp
        unfold SafeFactory.createdSingleton at hs
        simp [SafeFactory.create, SafeFactory.init, SafeFactory.getProxyFactoryContract,
          SafeFactory.getSafeContract, hp, hs] at hf
    · rw [Bool.not_eq_true] at hp
      unfold SafeFactory.createdProxyFactory at hp
      simp [SafeFactory.create, SafeFactory.init, SafeFactory.getProxyFactoryContract,
        SafeFactory.getSafeContract, hp] at hf
  · intro h
    by_cases hp : a.deployed (SafeFactory.createdProxyFactory a config).address = true
    · have hs : a.deployed (SafeFactory.createdSingleton a config).address = false := by
        cases h with
        | inl h1 => rw [hp] at h1; cases h1
        | inr h2 => exact h2
      refine ⟨safeContractNotDeployedError, ?_, Or.inr rfl⟩
      unfold SafeFactory.createdProxyFactory at hp
      unfold SafeFactory.createdSingleton at hs
      simp [SafeFactory.create, SafeFactory.init, SafeFactory.getProxyFactoryContract,
        SafeFactory.getSafeContract, hp, hs]
    · rw [Bool.not_eq_true] at hp
      refine ⟨proxyFactoryNotDeployedError, ?_, Or.inl rfl⟩
      unfold SafeFactory.createdProxyFactory at hp
      simp [SafeFactory.create, SafeFactory.init, SafeFactory.getProxyFactoryContract,
        SafeFactory.getSafeContract, hp]

/-- C7 witness: against a chain hosting no code, `create` fails with a
contract-not-deployed error. -/
theorem create_two_phase_witness :
    ∃ e, SafeFactory.create sampleAdapterNone {} = Except.error e
      ∧ (e = proxyFactoryNotDeployedError ∨ e = safeContractNotDeployedError) := by
  exact (create_two_phase sampleAdapterNone {}).2 (Or.inl (by decide))
